import Mathlib

/-!
Verification of the textosaurus repository excerpt: application lifecycle
glue (`application.cpp`), the exception value type
(`applicationexception.cpp`), the dock-widget base class (`dockwidget.h`)
and the markdown text browser (`markdowntextbrowser.h`).

Qt strings are modelled as Lean `String`; `QStringList::join` and
`QString::split` are modelled at the character-list level with a
single-character separator.
-/

namespace Textosaurus

/-! ## ApplicationException (applicationexception.cpp) -/

/-- `ApplicationException` wraps a single message string (`m_message`). -/
structure ApplicationException where
  m_message : String
deriving DecidableEq

/-- Constructor `ApplicationException::ApplicationException(const QString&)`:
initialises `m_message` with the given message. -/
def ApplicationException.construct (message : String) : ApplicationException :=
  { m_message := message }

/-- Accessor `ApplicationException::message() const`: returns `m_message`
without modifying the exception. -/
def ApplicationException.message (e : ApplicationException) : String :=
  e.m_message

/-! ## Qt string-list join and split

`QStringList::join(sep)` concatenates the items with the separator between
them; `QString::split(sep)` (with the default `Qt::KeepEmptyParts`) cuts the
string at every occurrence of the separator, keeping empty parts.  Both are
modelled on the underlying character lists. -/

/-- `QStringList::join(sep)` for a single-character separator. -/
def qtJoin (sep : Char) (l : List String) : String :=
  ⟨List.intercalate [sep] (l.map String.data)⟩

/-- `QString::split(sep)` (default `Qt::KeepEmptyParts`) for a
single-character separator. -/
def qtSplit (sep : Char) (s : String) : List String :=
  (s.data.splitOn sep).map (fun cs => ⟨cs⟩)

/-! ## Application::isRunning (application.cpp:51-53)

`return sendMessage((QStringList() << APP_IS_RUNNING
                     << arguments().mid(1)).join(ARGUMENTS_LIST_SEPARATOR));`

The macros `APP_IS_RUNNING`, `APP_QUIT_INSTANCE` and
`ARGUMENTS_LIST_SEPARATOR` come from a definitions header outside the
excerpt, so they are parameters here.  `arguments()` holds the program name
at index 0; `mid(1)` drops it. -/

/-- The message string that `Application::isRunning` sends to the running
peer: the is-running token followed by the command-line arguments without
the program name, joined with the separator. -/
def isRunningMessage (app_is_running : String) (sep : Char)
    (arguments : List String) : String :=
  qtJoin sep ([app_is_running] ++ arguments.drop 1)

/-- The message as claim C1 describes it (refinement comparison definition,
following the spec's words): an is-running flag, a quit-instance flag and
the command-line arguments, joined with the separator. -/
def specClaimedIsRunningMessage (app_is_running app_quit : String)
    (sep : Char) (arguments : List String) : String :=
  qtJoin sep ([app_is_running, app_quit] ++ arguments.drop 1)

/-! ## Application::processExecutionMessage (application.cpp:218-231) -/

/-- The externally visible effect of `Application::processExecutionMessage`:
either `quitApplication()` is invoked, or the split token list is passed to
`loadFilesFromArgs` and the main window is displayed, or nothing happens. -/
inductive ExecEffect where
  | quitApp : ExecEffect
  | loadFilesAndDisplay : List String → ExecEffect
  | noEffect : ExecEffect
deriving DecidableEq

/-- `Application::processExecutionMessage`: split the received message on the
separator; if the list contains the quit-instance token, quit the
application; otherwise, if it contains the is-running token, load files from
the token list and display the main form; otherwise do nothing. -/
def processExecutionMessage (app_quit app_is_running : String) (sep : Char)
    (message : String) : ExecEffect :=
  let messages := qtSplit sep message
  if messages.contains app_quit then
    ExecEffect.quitApp
  else
    if messages.contains app_is_running then
      ExecEffect.loadFilesAndDisplay messages
    else
      ExecEffect.noEffect

/-! ## Application::onCommitData (application.cpp:248-264) -/

/-- `QSessionManager::RestartHint` values. -/
inductive RestartHint where
  | restartIfRunning : RestartHint
  | restartAnyway : RestartHint
  | restartImmediately : RestartHint
  | restartNever : RestartHint
deriving DecidableEq

/-- The session-manager state touched by `onCommitData` and `onSaveState`:
the restart hint, whether user interaction is permitted, and whether
`release()` and `cancel()` have been called on it. -/
structure SessionManager where
  restartHint : RestartHint
  allowsInteraction : Bool
  released : Bool
  cancelled : Bool
deriving DecidableEq

/-- Result of a run of `Application::onCommitData`: the final manager state
and whether the `dataSaveRequested` signal was emitted. -/
structure CommitDataResult where
  manager : SessionManager
  dataSaveRequested : Bool
deriving DecidableEq

/-- `Application::onCommitData`: set the restart hint to `RestartNever`;
when the manager allows interaction, emit `dataSaveRequested(&ok)`, release
the manager, and cancel the shutdown when `ok` is false.  `saveOk` is the
value left in `ok` by the receivers of the signal. -/
def onCommitData (saveOk : Bool) (m : SessionManager) : CommitDataResult :=
  let m1 : SessionManager := { m with restartHint := RestartHint.restartNever }
  if m1.allowsInteraction then
    let m2 : SessionManager := { m1 with released := true }
    if !saveOk then
      { manager := { m2 with cancelled := true }, dataSaveRequested := true }
    else
      { manager := m2, dataSaveRequested := true }
  else
    { manager := m1, dataSaveRequested := false }

/-! ## Application::quitApplication (application.cpp:271-284) -/

/-- The application state touched by `quitApplication`: whether a main form
exists, the `m_isQuitting` and `m_shouldRestart` flags, and whether
`quit()` has been called. -/
structure AppQuitState where
  mainFormExists : Bool
  m_isQuitting : Bool
  m_shouldRestart : Bool
  quitCalled : Bool
deriving DecidableEq

/-- `Application::quitApplication`: when a main form exists, set
`m_isQuitting`, ask the form to close, and either call `quit()` (when the
form closed) or clear both `m_isQuitting` and `m_shouldRestart` (when it
refused); when there is no main form, do nothing.  `closeSucceeds` is the
value returned by `m_mainForm->close()`. -/
def quitApplication (closeSucceeds : Bool) (s : AppQuitState) : AppQuitState :=
  if s.mainFormExists then
    let s1 : AppQuitState := { s with m_isQuitting := true }
    if closeSucceeds then
      { s1 with quitCalled := true }
    else
      { s1 with m_isQuitting := false, m_shouldRestart := false }
  else
    s

/-! ## Application::isFirstRun(const QString&) (application.cpp:73-81) -/

/-- The settings store as far as `isFirstRun` reads it: a map from keys to
optional boolean values.  `Settings::value(group, key, default)` falls back
to the default when the key is absent. -/
def SettingsStore : Type := String → Option Bool

/-- A settings store with no stored keys. -/
def emptyStore : SettingsStore :=
  fun _ => none

/-- `Settings::value(GROUP(General), key, default).toBool()`. -/
def settingsValue (store : SettingsStore) (key : String) (deflt : Bool) : Bool :=
  (store key).getD deflt

/-- `Application::isFirstRun(const QString& version)`: when `version` equals
the compiled-in `APP_VERSION` (a macro from a header outside the excerpt,
here the parameter `app_version`), read the per-version first-run setting
keyed `FirstRun_<version>` with default `true`; otherwise return `false`
without touching the settings.  `first_run_key` stands for the
`General::FirstRun` key name. -/
def isFirstRunVersioned (app_version first_run_key : String)
    (store : SettingsStore) (version : String) : Bool :=
  if version = app_version then
    settingsValue store (first_run_key ++ "_" ++ version) true
  else
    false

/-! ## Application::deleteTrayIcon (application.cpp:133-143) -/

/-- The application state touched by `deleteTrayIcon`: whether the
`m_trayIcon` pointer is non-null, the quit-on-last-window-closed flag, and
whether the main form has been raised by `display()`. -/
structure TrayState where
  trayIconExists : Bool
  quitOnLastWindowClosed : Bool
  mainFormDisplayed : Bool
deriving DecidableEq

/-- `Application::deleteTrayIcon`: when the tray icon is non-null, display
the main form, delete the icon (making the pointer null) and re-enable
quit-on-last-window-closed; otherwise do nothing. -/
def deleteTrayIcon (s : TrayState) : TrayState :=
  if s.trayIconExists then
    { s with mainFormDisplayed := true, trayIconExists := false,
             quitOnLastWindowClosed := true }
  else
    s

/-! ## DockWidget (dockwidget.h) -/

/-- `Qt::DockWidgetArea` values a dock widget can request. -/
inductive DockWidgetArea where
  | leftDockWidgetArea : DockWidgetArea
  | rightDockWidgetArea : DockWidgetArea
  | topDockWidgetArea : DockWidgetArea
  | bottomDockWidgetArea : DockWidgetArea
  | noDockWidgetArea : DockWidgetArea
deriving DecidableEq

/-- The pure-virtual interface of `DockWidget` (dockwidget.h:19-21): every
subclass must supply `initialArea`, `initiallyVisible` and `initialWidth`. -/
structure DockWidgetSubclass where
  initialArea : DockWidgetArea
  initiallyVisible : Bool
  initialWidth : Int
deriving DecidableEq

/-- The widget state acted on by `DockWidget::switchVisibility`. -/
structure DockWidgetState where
  visible : Bool
deriving DecidableEq

/-- Modelled from the spec: the body of `DockWidget::switchVisibility` lives
in a source file outside the excerpt (only its declaration in dockwidget.h
is present); the spec says the dock widget "toggles visibility on
request". -/
def switchVisibility (w : DockWidgetState) : DockWidgetState :=
  { w with visible := !w.visible }

/-! ## MarkdownTextBrowser (markdowntextbrowser.h) -/

/-- The private state of `MarkdownTextBrowser` (markdowntextbrowser.h:21):
the stored document base folder. -/
structure MarkdownTextBrowserState where
  m_documentBaseFolder : String
deriving DecidableEq

/-- A resource URL as far as `loadResource` inspects it: whether it is
relative, and its textual path. -/
structure ResourceUrl where
  isRelativeUrl : Bool
  path : String
deriving DecidableEq

/-- Outcome of a `loadResource` call: either a resource loaded from a
resolved local path, or deferral to the toolkit's default handling. -/
inductive LoadedResource where
  | loadedFrom : String → LoadedResource
  | toolkitDefault : ResourceUrl → LoadedResource
deriving DecidableEq

/-- Modelled from the spec: `setMarkdownDocument(base_folder,
html_contents)` is implemented outside the excerpt; the spec says the
browser "stores a base folder string", so the call stores `base_folder` in
`m_documentBaseFolder` (the HTML contents go to the toolkit document, not
to this state). -/
def setMarkdownDocument (base_folder html_contents : String)
    (b : MarkdownTextBrowserState) : MarkdownTextBrowserState :=
  { b with m_documentBaseFolder := base_folder }

/-- Modelled from the spec: resolution of a relative URL against a base
folder, producing the local path of the embedded resource. -/
def resolveAgainstBase (base : String) (u : ResourceUrl) : String :=
  base ++ "/" ++ u.path

/-- Modelled from the spec: `MarkdownTextBrowser::loadResource` is
implemented outside the excerpt; the spec says the browser "resolves
relative resource URLs against it (the stored base folder) when the toolkit
requests an embedded resource", so a relative URL is resolved against
`m_documentBaseFolder` and an absolute one is left to the toolkit. -/
def loadResource (resource_type : Int) (name : ResourceUrl)
    (b : MarkdownTextBrowserState) : LoadedResource :=
  if name.isRelativeUrl then
    LoadedResource.loadedFrom (resolveAgainstBase b.m_documentBaseFolder name)
  else
    LoadedResource.toolkitDefault name

/-! ## Helper lemmas -/

/-- Rebuilding strings from their character data is the identity. -/
theorem map_mk_map_data (l : List String) :
    (l.map String.data).map (fun cs => (⟨cs⟩ : String)) = l := by
  induction l with
  | nil => rfl
  | cons a t ih => simp [ih]

/-- Splitting a joined string list recovers the list, provided no item
contains the separator and the list is nonempty. -/
theorem qtSplit_qtJoin (sep : Char) (l : List String)
    (hsep : ∀ a ∈ l, sep ∉ a.data) (hne : l ≠ []) :
    qtSplit sep (qtJoin sep l) = l := by
  have hx : ∀ cs ∈ l.map String.data, sep ∉ cs := by
    intro cs hcs
    rcases List.mem_map.mp hcs with ⟨a, ha, rfl⟩
    exact hsep a ha
  have hns : l.map String.data ≠ [] := by
    simpa using hne
  unfold qtSplit qtJoin
  rw [show (String.mk ([sep].intercalate (l.map String.data))).data
        = [sep].intercalate (l.map String.data) from rfl]
  rw [List.splitOn_intercalate _ sep hx hns]
  exact map_mk_map_data l

/-! ## Claim theorems -/

/-- Claim C1, counterexample: at concrete token values and arguments, the
message sent by `Application::isRunning` differs from the claim's described
message (is-running flag, quit-instance flag and arguments, joined), and the
quit-instance token does not appear among the sent message's separator-split
tokens at all. -/
theorem c1_isRunning_counterexample :
    isRunningMessage "app_is_running" '\n' ["textosaurus", "file.txt"]
      ≠ specClaimedIsRunningMessage "app_is_running" "app_quit_instance" '\n'
          ["textosaurus", "file.txt"]
    ∧ "app_quit_instance" ∉
        qtSplit '\n' (isRunningMessage "app_is_running" '\n'
          ["textosaurus", "file.txt"]) := by
  decide

/-- Claim C1 (amended): the message sent by `Application::isRunning` is the
is-running flag followed by the command-line arguments (excluding the
program name), joined with the arguments-list separator; the quit-instance
flag is not among the joined tokens.  Provided no token contains the
separator, the peer's split of the sent message is exactly the is-running
flag and the arguments, and any quit token distinct from all of them is
absent. -/
theorem c1_isRunning_amended (flag quit : String) (sep : Char)
    (args : List String)
    (hflag : sep ∉ flag.data)
    (hargs : ∀ a ∈ args.drop 1, sep ∉ a.data)
    (hqflag : quit ≠ flag)
    (hqargs : quit ∉ args.drop 1) :
    qtSplit sep (isRunningMessage flag sep args) = flag :: args.drop 1
    ∧ quit ∉ qtSplit sep (isRunningMessage flag sep args) := by
  have hsep2 : ∀ a ∈ [flag] ++ args.drop 1, sep ∉ a.data := by
    intro a ha
    rcases List.mem_append.mp ha with h | h
    · rw [List.mem_singleton.mp h]
      exact hflag
    · exact hargs a h
  have hne2 : [flag] ++ args.drop 1 ≠ [] := by
    simp
  have hsplit : qtSplit sep (isRunningMessage flag sep args)
      = flag :: args.drop 1 := by
    unfold isRunningMessage
    rw [qtSplit_qtJoin sep ([flag] ++ args.drop 1) hsep2 hne2]
    rfl
  refine ⟨hsplit, ?_⟩
  rw [hsplit]
  intro hmem
  rcases List.mem_cons.mp hmem with h | h
  · exact hqflag h
  · exact hqargs h

/-- Claim C1 amended, witness at concrete inputs. -/
theorem c1_isRunning_amended_witness :
    qtSplit '\n' (isRunningMessage "app_is_running" '\n'
        ["textosaurus", "file.txt"])
      = ["app_is_running", "file.txt"]
    ∧ "app_quit_instance" ∉
        qtSplit '\n' (isRunningMessage "app_is_running" '\n'
          ["textosaurus", "file.txt"]) :=
  c1_isRunning_amended "app_is_running" "app_quit_instance" '\n'
    ["textosaurus", "file.txt"] (by decide) (by decide) (by decide) (by decide)

/-- Claim C2: `Application::processExecutionMessage` splits the received
message on the separator and decides by membership: a list containing the
quit token leads to `quitApplication()` being invoked (no files loaded); a
list without the quit token but with the is-running token is passed whole to
`loadFilesFromArgs` and the main window is displayed; otherwise nothing
happens.  The quit token takes priority when both are present. -/
theorem c2_processExecutionMessage (app_quit app_is_running : String)
    (sep : Char) (message : String) :
    (app_quit ∈ qtSplit sep message →
      processExecutionMessage app_quit app_is_running sep message
        = ExecEffect.quitApp)
    ∧ (app_quit ∉ qtSplit sep message → app_is_running ∈ qtSplit sep message →
      processExecutionMessage app_quit app_is_running sep message
        = ExecEffect.loadFilesAndDisplay (qtSplit sep message))
    ∧ (app_quit ∉ qtSplit sep message → app_is_running ∉ qtSplit sep message →
      processExecutionMessage app_quit app_is_running sep message
        = ExecEffect.noEffect) := by
  unfold processExecutionMessage
  refine ⟨fun hq => ?_, fun hq hr => ?_, fun hq hr => ?_⟩
  · simp [List.contains, hq]
  · simp [List.contains, hq, hr]
  · simp [List.contains, hq, hr]

/-- Claim C2, witness: a message holding both tokens leads to quitting
(the quit token takes priority). -/
theorem c2_processExecutionMessage_witness :
    processExecutionMessage "app_quit_instance" "app_is_running" '\n'
      "app_is_running\napp_quit_instance" = ExecEffect.quitApp :=
  (c2_processExecutionMessage "app_quit_instance" "app_is_running" '\n'
      "app_is_running\napp_quit_instance").1 (by decide)

/-- Claim C3: an `ApplicationException` constructed with message `s` has
`message() = s`, and the stored message is the exception's entire state, so
no operation (the only ones being construction and the const accessor
`message()`) can change it after construction. -/
theorem c3_exception_message :
    (∀ s : String, (ApplicationException.construct s).message = s)
    ∧ ∀ e : ApplicationException, ApplicationException.construct e.message = e :=
  ⟨fun _ => rfl, fun _ => rfl⟩

/-- Claim C4: `Application::onCommitData` always sets the restart hint to
`RestartNever`; when interaction is allowed it emits the data-save request
and cancels the shutdown exactly when not all documents were saved; when
interaction is not allowed it neither requests a save nor cancels, changing
only the restart hint. -/
theorem c4_onCommitData (saveOk : Bool) (m : SessionManager)
    (hc : m.cancelled = false) :
    (onCommitData saveOk m).manager.restartHint = RestartHint.restartNever
    ∧ (m.allowsInteraction = true →
        (onCommitData saveOk m).dataSaveRequested = true
        ∧ ((onCommitData saveOk m).manager.cancelled = true ↔ saveOk = false))
    ∧ (m.allowsInteraction = false →
        (onCommitData saveOk m).dataSaveRequested = false
        ∧ (onCommitData saveOk m).manager.cancelled = false
        ∧ (onCommitData saveOk m).manager
            = { m with restartHint := RestartHint.restartNever }) := by
  obtain ⟨rh, ai, rel, can⟩ := m
  cases ai <;> cases saveOk <;> cases can <;> simp_all [onCommitData]

/-- Claim C4, witness: with interaction allowed and an unsuccessful save,
the shutdown is cancelled. -/
theorem c4_onCommitData_witness :
    (onCommitData false
        ⟨RestartHint.restartAnyway, true, false, false⟩).manager.cancelled
      = true ↔ (false : Bool) = false :=
  ((c4_onCommitData false ⟨RestartHint.restartAnyway, true, false, false⟩
      (by decide)).2.1 (by decide)).2

/-- Claim C5: `DockWidget::switchVisibility` toggles visibility (a visible
widget becomes hidden and a hidden one visible), and every `DockWidget`
subclass supplies exactly a dock area, an initial visibility and an initial
width through the pure-virtual interface. -/
theorem c5_switchVisibility (w : DockWidgetState) (sub : DockWidgetSubclass) :
    (switchVisibility w).visible = !w.visible
    ∧ (w.visible = true → (switchVisibility w).visible = false)
    ∧ (w.visible = false → (switchVisibility w).visible = true)
    ∧ sub = { initialArea := sub.initialArea,
              initiallyVisible := sub.initiallyVisible,
              initialWidth := sub.initialWidth } := by
  obtain ⟨v⟩ := w
  cases v <;> simp [switchVisibility]

/-- Claim C5, witness: a visible dock widget becomes hidden. -/
theorem c5_switchVisibility_witness :
    (switchVisibility ⟨true⟩).visible = false :=
  (c5_switchVisibility ⟨true⟩
      ⟨DockWidgetArea.leftDockWidgetArea, true, 150⟩).2.1 rfl

/-- Claim C6: `setMarkdownDocument` stores the given base folder, and a
subsequent `loadResource` call with a relative resource URL resolves the URL
against that stored base folder. -/
theorem c6_loadResource (base html_contents : String)
    (b : MarkdownTextBrowserState) (resource_type : Int) (u : ResourceUrl)
    (hrel : u.isRelativeUrl = true) :
    (setMarkdownDocument base html_contents b).m_documentBaseFolder = base
    ∧ loadResource resource_type u (setMarkdownDocument base html_contents b)
        = LoadedResource.loadedFrom (resolveAgainstBase base u) := by
  refine ⟨rfl, ?_⟩
  simp [loadResource, setMarkdownDocument, hrel]

/-- Claim C6, witness at concrete inputs. -/
theorem c6_loadResource_witness :
    loadResource 2 ⟨true, "img.png"⟩
        (setMarkdownDocument "/home/user/docs" "<p>hi</p>" ⟨""⟩)
      = LoadedResource.loadedFrom "/home/user/docs/img.png" :=
  (c6_loadResource "/home/user/docs" "<p>hi</p>" ⟨""⟩ 2 ⟨true, "img.png"⟩
      rfl).2

/-- Claim C7: `Application::quitApplication` leaves the state unchanged when
there is no main form; when the main form refuses to close, both
`m_isQuitting` and `m_shouldRestart` end up false and `quit()` is not
called; `quit()` is called exactly when the main form exists and closes
successfully. -/
theorem c7_quitApplication (closeSucceeds : Bool) (s : AppQuitState)
    (hq : s.quitCalled = false) :
    (s.mainFormExists = false → quitApplication closeSucceeds s = s)
    ∧ (s.mainFormExists = true → closeSucceeds = false →
        (quitApplication closeSucceeds s).m_isQuitting = false
        ∧ (quitApplication closeSucceeds s).m_shouldRestart = false
        ∧ (quitApplication closeSucceeds s).quitCalled = false)
    ∧ ((quitApplication closeSucceeds s).quitCalled = true ↔
        s.mainFormExists = true ∧ closeSucceeds = true) := by
  obtain ⟨mf, iq, sr, qc⟩ := s
  cases mf <;> cases closeSucceeds <;> cases qc <;>
    simp_all [quitApplication]

/-- Claim C7, witness: a refused close cancels both the quitting flag and a
pending restart. -/
theorem c7_quitApplication_witness :
    (quitApplication false ⟨true, false, true, false⟩).m_isQuitting = false
    ∧ (quitApplication false ⟨true, false, true, false⟩).m_shouldRestart = false
    ∧ (quitApplication false ⟨true, false, true, false⟩).quitCalled = false :=
  (c7_quitApplication false ⟨true, false, true, false⟩ rfl).2.1 rfl rfl

/-- Claim C8: `Application::isFirstRun(version)` returns false for any
version different from the compiled-in application version, independently of
the settings store; only for the compiled-in version is the per-version
first-run setting read, defaulting to true when absent. -/
theorem c8_isFirstRun (app_version first_run_key : String)
    (store : SettingsStore) (version : String) :
    (version ≠ app_version →
      isFirstRunVersioned app_version first_run_key store version = false
      ∧ ∀ store2 : SettingsStore,
          isFirstRunVersioned app_version first_run_key store version
            = isFirstRunVersioned app_version first_run_key store2 version)
    ∧ (version = app_version →
      isFirstRunVersioned app_version first_run_key store version
        = (store (first_run_key ++ "_" ++ version)).getD true) := by
  constructor
  · intro h
    constructor
    · simp [isFirstRunVersioned, h]
    · intro store2
      simp [isFirstRunVersioned, h]
  · intro h
    simp [isFirstRunVersioned, settingsValue, h]

/-- Claim C8, witness: a mismatched version yields false on an empty
settings store, and the matching version reads the stored default. -/
theorem c8_isFirstRun_witness :
    isFirstRunVersioned "1.0.0" "FirstRun" emptyStore "0.9.9" = false
    ∧ isFirstRunVersioned "1.0.0" "FirstRun" emptyStore "1.0.0"
        = (emptyStore ("FirstRun" ++ "_" ++ "1.0.0")).getD true :=
  ⟨((c8_isFirstRun "1.0.0" "FirstRun" emptyStore "0.9.9").1 (by decide)).1,
   (c8_isFirstRun "1.0.0" "FirstRun" emptyStore "1.0.0").2 rfl⟩

/-- Claim C9: `Application::deleteTrayIcon` does nothing when the tray icon
is already null; otherwise it nulls the tray-icon pointer and enables
quit-on-last-window-closed; and it is idempotent — two consecutive calls
equal one. -/
theorem c9_deleteTrayIcon (s : TrayState) :
    (s.trayIconExists = false → deleteTrayIcon s = s)
    ∧ (s.trayIconExists = true →
        (deleteTrayIcon s).trayIconExists = false
        ∧ (deleteTrayIcon s).quitOnLastWindowClosed = true)
    ∧ deleteTrayIcon (deleteTrayIcon s) = deleteTrayIcon s := by
  obtain ⟨ti, q, d⟩ := s
  cases ti <;> simp [deleteTrayIcon]

/-- Claim C9, witness: deleting an existing tray icon nulls it and enables
quit-on-last-window-closed. -/
theorem c9_deleteTrayIcon_witness :
    (deleteTrayIcon ⟨true, false, false⟩).trayIconExists = false
    ∧ (deleteTrayIcon ⟨true, false, false⟩).quitOnLastWindowClosed = true :=
  (c9_deleteTrayIcon ⟨true, false, false⟩).2.1 rfl

end Textosaurus
